import Mathlib

/-!
Verification of the `log` package: a process-wide reconfigurable logging
facade built on `log/slog`.

The embedding below is a shallow, sequential model of the package's global
state (`globalLogger`, `logLevel`, `output`, `handler`) and of its operations
(`WithJSONFormat`, `WithTextFormat`, `WithOutput`, `WithLogLevel`,
`Configure`, the emit functions `Debug`/`Info`/`Warn`/`Error`, and
`CopyLogger`).  Configuration options, which in Go are side-effecting
closures over the package-level variables, are modelled as state
transformers `LogState → LogState`.  The mutex and the atomic cells are not
modelled (the embedding is sequential); claims about interleaving are out of
scope here.

Severity levels are the numeric `slog.Level` values (`Debug = -4`,
`Info = 0`, `Warn = 4`, `Error = 8`).  A handler's level option
(`slog.HandlerOptions.Level`, a `slog.Leveler`) is either a plain
`slog.Level` value — a fixed snapshot — or the package's `*slog.LevelVar`,
a live reference to the severity gate; the `Leveler` type keeps this
distinction, which is essential: `init` passes the `LevelVar` itself while
`storeLogger` passes `logLevel.Level()`, a snapshot.
-/

namespace LogPkg

/-- Numeric value of `slog.LevelDebug`. -/
def LevelDebug : Int := -4

/-- Numeric value of `slog.LevelInfo`. -/
def LevelInfo : Int := 0

/-- Numeric value of `slog.LevelWarn`. -/
def LevelWarn : Int := 4

/-- Numeric value of `slog.LevelError`. -/
def LevelError : Int := 8

/-- The `reflect.Kind` of a non-nil `io.Writer` interface value, as far as
`isNotNilOrNilPointer` inspects it: pointer kind, interface kind, or any
other kind. -/
inductive ReflectKind where
  | ptr
  | iface
  | other
deriving DecidableEq, Repr

/-- A concrete (non-nil-interface) `io.Writer` value: its reflect kind,
whether `reflect.ValueOf(w).IsNil()` would hold (meaningful for pointer and
interface kinds), and an identity tag distinguishing sinks.  Identity `0`
is reserved for `os.Stdout`. -/
structure WriterHandle where
  kind : ReflectKind
  nilVal : Bool
  id : Nat
deriving DecidableEq, Repr

/-- The process's standard output stream, `os.Stdout`: a non-nil `*os.File`. -/
def osStdout : WriterHandle := { kind := .ptr, nilVal := false, id := 0 }

/-- An `io.Writer` argument as passed to `WithOutput`: either the nil
interface value, or a concrete handle. -/
inductive WriterArg where
  | nilW
  | handle (h : WriterHandle)
deriving DecidableEq, Repr

/-- `isNotNilOrNilPointer` from the source: reports false for the nil
interface, false for a pointer- or interface-kinded value whose underlying
value is nil, and true otherwise. -/
def isNotNilOrNilPointer (out : WriterArg) : Bool :=
  match out with
  | .nilW => false
  | .handle h =>
    if (h.kind = .ptr ∨ h.kind = .iface) ∧ h.nilVal = true then false else true

/-- Output format of the active handler: `slog.NewJSONHandler` vs
`slog.NewTextHandler`. -/
inductive Format where
  | json
  | text
deriving DecidableEq, Repr

/-- The `slog.Leveler` carried in the handler's options: either a plain
`slog.Level` (a fixed snapshot taken when the handler was built) or the
package's `*slog.LevelVar` (a live reference to the severity gate). -/
inductive Leveler where
  | fixed (l : Int)
  | levelVar
deriving DecidableEq, Repr

/-- A `*slog.Logger` as built by this package: its handler's format, the
writer the handler holds, and the leveler in its options. -/
structure BoundLogger where
  format : Format
  out : WriterHandle
  level : Leveler
deriving DecidableEq, Repr

/-- The package-level mutable state: `globalLogger`, the `logLevel`
`LevelVar`'s current value, the `output` variable, and the `handler`
format selector (`0` = JSON, `1` = Text). -/
structure LogState where
  globalLogger : BoundLogger
  logLevel : Int
  output : WriterHandle
  handler : Int
deriving DecidableEq, Repr

/-- The state established by `init`: `logLevel` set to Warn, `output` set
to `os.Stdout`, `handler` set to `0`, and `globalLogger` a JSON-handler
logger over `output` whose level option is the `logLevel` `LevelVar`
itself (a live reference, not a snapshot). -/
def initState : LogState :=
  { logLevel := LevelWarn
    output := osStdout
    handler := 0
    globalLogger := { format := .json, out := osStdout, level := .levelVar } }

/-- `storeLogger` from the source: builds a new `*slog.Logger` from the
current format selector and stores it as the global logger.  The JSON
branch writes to the `out` parameter, the Text branch to the package
variable `output`; both receive `level` — a plain `slog.Level` snapshot —
as the handler's level option. -/
def storeLogger (s : LogState) (out : WriterHandle) (level : Int) : LogState :=
  if s.handler = 0 then
    { s with globalLogger := { format := .json, out := out, level := .fixed level } }
  else
    { s with globalLogger := { format := .text, out := s.output, level := .fixed level } }

/-- `WithJSONFormat` from the source: stores `0` into the format selector,
then rebuilds via `storeLogger(output, logLevel.Level())`. -/
def WithJSONFormat (s : LogState) : LogState :=
  let s1 := { s with handler := 0 }
  storeLogger s1 s1.output s1.logLevel

/-- `WithTextFormat` from the source: stores `1` into the format selector,
then rebuilds via `storeLogger(output, logLevel.Level())`. -/
def WithTextFormat (s : LogState) : LogState :=
  let s1 := { s with handler := 1 }
  storeLogger s1 s1.output s1.logLevel

/-- `WithOutput` from the source: if the supplied writer passes
`isNotNilOrNilPointer` it becomes the new `output`, otherwise `output`
falls back to `os.Stdout`; then the logger is rebuilt via
`storeLogger(output, logLevel.Level())`. -/
def WithOutput (out : WriterArg) (s : LogState) : LogState :=
  let s1 :=
    if isNotNilOrNilPointer out then
      { s with output := match out with | .handle h => h | .nilW => osStdout }
    else
      { s with output := osStdout }
  storeLogger s1 s1.output s1.logLevel

/-- The `logLevelMap` literal from `WithLogLevel`; a missing key yields the
Go zero value of `slog.Level`, which is `0`. -/
def logLevelMap (level : String) : Int :=
  if level = "debug" then LevelDebug
  else if level = "info" then LevelInfo
  else if level = "warn" then LevelWarn
  else if level = "error" then LevelError
  else 0

/-- `WithLogLevel` from the source: any string other than the four
recognized names is replaced by `"warn"`, then the map is consulted and
the result stored into the `logLevel` `LevelVar`.  The global logger is
not rebuilt. -/
def WithLogLevel (level : String) (s : LogState) : LogState :=
  let lv :=
    if level ≠ "debug" ∧ level ≠ "info" ∧ level ≠ "warn" ∧ level ≠ "error" then "warn"
    else level
  { s with logLevel := logLevelMap lv }

/-- `Configure` from the source: applies the supplied options in order. -/
def Configure (options : List (LogState → LogState)) (s : LogState) : LogState :=
  options.foldl (fun st o => o st) s

/-- A Go `any` argument as passed to the emit functions, as far as slog's
attribute grammar inspects it: a string, an `slog.Attr`, or any other
value (carrying an identity tag). -/
inductive GoAny where
  | str (s : String)
  | attr (key : String) (val : GoAny)
  | other (id : Nat)
deriving DecidableEq, Repr

/-- An `slog.Attr`: a key paired with a value. -/
structure Attr where
  key : String
  val : GoAny
deriving DecidableEq, Repr

/-- slog's sentinel key for arguments that cannot be paired with a key. -/
def badKey : String := "!BADKEY"

/-- slog's `argsToAttrSlice` grammar, applied by `Record.Add` to the
variadic argument list: an `slog.Attr` is used as-is; a string that is not
the last argument becomes a key for the following argument; anything else
(a trailing string, or a non-string non-Attr value) becomes a value under
`"!BADKEY"`. -/
def argsToAttrSlice : List GoAny → List Attr
  | [] => []
  | .str x :: [] => [⟨badKey, .str x⟩]
  | .str x :: a :: rest => ⟨x, a⟩ :: argsToAttrSlice rest
  | .attr k v :: rest => ⟨k, v⟩ :: argsToAttrSlice rest
  | .other v :: rest => ⟨badKey, .other v⟩ :: argsToAttrSlice rest

/-- A log record as assembled by an emit call: level, message, and the
attributes produced from the variadic arguments. -/
structure Record where
  level : Int
  msg : String
  attrs : List Attr
deriving DecidableEq, Repr

/-- The observable effect of one emit call that passed the level check: a
record rendered in the handler's format and written to the handler's
writer.  (Rendering itself is the external `slog` handler's job; the
format tag, destination, level, and message determine the bytes.) -/
structure Output where
  format : Format
  dest : WriterHandle
  record : Record
deriving DecidableEq, Repr

/-- The minimum level enforced by a leveler: a fixed snapshot enforces
itself; the `LevelVar` reference enforces the gate's current value, read
from the state at emit time. -/
def minLvl (s : LogState) : Leveler → Int
  | .fixed l => l
  | .levelVar => s.logLevel

/-- One call on a specific `*slog.Logger` value (`lg.Debug` etc.): slog
checks `Enabled` — the record level must be at or above the handler's
leveler — and, if enabled, assembles the record and writes it through the
handler; otherwise nothing happens. -/
def logWith (s : LogState) (lg : BoundLogger) (lvl : Int) (msg : String)
    (args : List GoAny) : Option Output :=
  if minLvl s lg.level ≤ lvl then
    some { format := lg.format, dest := lg.out
           record := { level := lvl, msg := msg, attrs := argsToAttrSlice args } }
  else none

/-- Package-level `Debug`: delegates to the global logger at level Debug. -/
def Debug (s : LogState) (msg : String) (args : List GoAny) : Option Output :=
  logWith s s.globalLogger LevelDebug msg args

/-- Package-level `Info`: delegates to the global logger at level Info. -/
def Info (s : LogState) (msg : String) (args : List GoAny) : Option Output :=
  logWith s s.globalLogger LevelInfo msg args

/-- Package-level `Warn`: delegates to the global logger at level Warn. -/
def Warn (s : LogState) (msg : String) (args : List GoAny) : Option Output :=
  logWith s s.globalLogger LevelWarn msg args

/-- Package-level `Error`: delegates to the global logger at level Error. -/
def Error (s : LogState) (msg : String) (args : List GoAny) : Option Output :=
  logWith s s.globalLogger LevelError msg args

/-- Modelled from the spec: `CopyLogger`'s implementation is absent from
the sources (only its README entry — "CopyLogger copies the global logger
and returns it" — and its test appear); per the spec it "returns the
BoundLogger instance currently installed in the Global Logger Cell (by
reference, not by deep duplication)". -/
def CopyLogger (s : LogState) : BoundLogger := s.globalLogger

/-- Claim C1: the claim states that after any format or destination change
rebuilds the bound logger, a subsequent `WithLogLevel` call still changes
which records the emit functions write, the bound logger referencing the
gate rather than snapshotting its level.  The code does the opposite:
`storeLogger` passes `logLevel.Level()` — a plain `slog.Level` snapshot —
into the handler options, so after `WithTextFormat` the installed logger
filters at the snapshotted Warn level, and a subsequent
`WithLogLevel "debug"` moves the gate to Debug without affecting the
emit functions: `Debug` still writes nothing.  This theorem evaluates the
code at that failing input. -/
theorem C1_gate_snapshot_after_rebuild :
    (WithLogLevel "debug" (WithTextFormat initState)).logLevel = LevelDebug ∧
    (WithLogLevel "debug" (WithTextFormat initState)).globalLogger.level =
      Leveler.fixed LevelWarn ∧
    Debug (WithLogLevel "debug" (WithTextFormat initState)) "x" [] = none := by
  decide

/-- Claim C2 counterexample: the claim states that for every sequence of
configuration actions applied after a `CopyLogger` snapshot — in
particular a severity change — the copied logger's level-filter behavior
under direct invocation is unchanged.  Copying the initial logger refutes
this: that logger's handler holds the live `LevelVar`, so after
`WithLogLevel "debug"` the copied logger starts passing Debug records it
previously filtered. -/
theorem C2_counterexample :
    CopyLogger initState = initState.globalLogger ∧
    logWith initState (CopyLogger initState) LevelDebug "m" [] = none ∧
    logWith (WithLogLevel "debug" initState) (CopyLogger initState) LevelDebug "m" [] ≠
      none := by
  decide

/-- Claim C2 (amended): `CopyLogger` returns the bound logger currently
installed in the global logger cell by reference; whenever that logger's
level option is a fixed snapshot — which holds for every logger built by
`storeLogger`, i.e. after any rebuild — its level-filter behavior under
direct invocation is unchanged by any later state whatsoever.  (The one
exception, forced by the counterexample, is the initial logger, whose
handler references the gate live.) -/
theorem C2_copy_frozen_after_rebuild (s s2 : LogState) (l lvl : Int) (msg : String)
    (args : List GoAny) (h : (CopyLogger s).level = Leveler.fixed l) :
    CopyLogger s = s.globalLogger ∧
    (∀ st o lv, ((storeLogger st o lv).globalLogger).level = Leveler.fixed lv) ∧
    logWith s2 (CopyLogger s) lvl msg args = logWith s (CopyLogger s) lvl msg args := by
  refine ⟨rfl, ?_, ?_⟩
  · intro st o lv
    unfold storeLogger
    split <;> rfl
  · unfold logWith
    rw [h]
    rfl

/-- Claim C2 witness: the amended theorem applied to a state reached by a
rebuild (`WithJSONFormat`), a later severity change, and a Debug-level
direct invocation. -/
theorem C2_witness :
    (CopyLogger (WithJSONFormat initState)).level = Leveler.fixed LevelWarn ∧
    logWith (WithLogLevel "debug" (WithJSONFormat initState))
        (CopyLogger (WithJSONFormat initState)) LevelDebug "m" [] =
      logWith (WithJSONFormat initState)
        (CopyLogger (WithJSONFormat initState)) LevelDebug "m" [] :=
  ⟨by decide,
   (C2_copy_frozen_after_rebuild (WithJSONFormat initState)
      (WithLogLevel "debug" (WithJSONFormat initState)) LevelWarn LevelDebug "m" []
      (by decide)).2.2⟩

/-- Claim C4: `WithLogLevel` maps the four recognized names to the
corresponding levels, and every other string — the empty string
included — to Warn; being a total function, it signals no error. -/
theorem C4_withLogLevel_mapping (s : LogState) (str : String)
    (h : str ≠ "debug" ∧ str ≠ "info" ∧ str ≠ "warn" ∧ str ≠ "error") :
    (WithLogLevel "debug" s).logLevel = LevelDebug ∧
    (WithLogLevel "info" s).logLevel = LevelInfo ∧
    (WithLogLevel "warn" s).logLevel = LevelWarn ∧
    (WithLogLevel "error" s).logLevel = LevelError ∧
    (WithLogLevel str s).logLevel = LevelWarn := by
  refine ⟨rfl, rfl, rfl, rfl, ?_⟩
  show logLevelMap
      (if str ≠ "debug" ∧ str ≠ "info" ∧ str ≠ "warn" ∧ str ≠ "error" then "warn"
       else str) = LevelWarn
  rw [if_pos h]
  rfl

/-- Claim C4 witness: the theorem applied at the empty string. -/
theorem C4_witness :
    ("" ≠ "debug" ∧ "" ≠ "info" ∧ "" ≠ "warn" ∧ "" ≠ "error") ∧
    (WithLogLevel "" initState).logLevel = LevelWarn :=
  ⟨by decide, (C4_withLogLevel_mapping initState "" (by decide)).2.2.2.2⟩

/-- Claim C5: after `WithOutput`, the effective destination is `os.Stdout`
when the supplied sink is the nil interface or a handle of pointer or
interface kind wrapping a nil value, and the supplied sink itself
otherwise; in every case the rebuilt global logger writes to that same
destination, and no error is signalled (`WithOutput` is total). -/
theorem C5_withOutput_defaulting (s : LogState) (h : WriterHandle) :
    (WithOutput .nilW s).output = osStdout ∧
    (((h.kind = ReflectKind.ptr ∨ h.kind = ReflectKind.iface) ∧ h.nilVal = true) →
      (WithOutput (.handle h) s).output = osStdout) ∧
    (¬((h.kind = ReflectKind.ptr ∨ h.kind = ReflectKind.iface) ∧ h.nilVal = true) →
      (WithOutput (.handle h) s).output = h) ∧
    (∀ out : WriterArg,
      (WithOutput out s).globalLogger.out = (WithOutput out s).output) := by
  refine ⟨?_, ?_, ?_, ?_⟩
  · by_cases hh : s.handler = 0 <;>
      simp [WithOutput, isNotNilOrNilPointer, storeLogger, hh]
  · intro hc
    by_cases hh : s.handler = 0 <;>
      simp [WithOutput, isNotNilOrNilPointer, storeLogger, hh, if_pos hc]
  · intro hc
    by_cases hh : s.handler = 0 <;>
      simp [WithOutput, isNotNilOrNilPointer, storeLogger, hh, if_neg hc]
  · intro out
    cases out with
    | nilW =>
      by_cases hh : s.handler = 0 <;>
        simp [WithOutput, isNotNilOrNilPointer, storeLogger, hh]
    | handle h2 =>
      by_cases hv : (h2.kind = ReflectKind.ptr ∨ h2.kind = ReflectKind.iface) ∧
          h2.nilVal = true <;>
        by_cases hh : s.handler = 0 <;>
        simp [WithOutput, isNotNilOrNilPointer, storeLogger, hh, hv]

/-- Claim C5 witness: the theorem applied to a nil `*os.File` handle (which
defaults to standard output) and, via the third conjunct, to a plain
non-pointer sink (which is installed as supplied). -/
theorem C5_witness :
    (WithOutput (.handle ⟨ReflectKind.ptr, true, 7⟩) initState).output = osStdout ∧
    (WithOutput (.handle ⟨ReflectKind.other, false, 5⟩) initState).output =
      ⟨ReflectKind.other, false, 5⟩ :=
  ⟨(C5_withOutput_defaulting initState ⟨ReflectKind.ptr, true, 7⟩).2.1
      ⟨Or.inl rfl, rfl⟩,
   (C5_withOutput_defaulting initState ⟨ReflectKind.other, false, 5⟩).2.2.1
      (by decide)⟩

/-- Claim C6: whenever an emit call produces a record, its attribute list
is `argsToAttrSlice` of the variadic arguments, and `argsToAttrSlice`
realises exactly the claimed left-to-right grammar: a pre-formed
`slog.Attr` is used as-is (one position); a string that is not the final
argument keys the next argument (two positions); a trailing string or a
non-string non-Attr value lands under `"!BADKEY"` (one position).  In
particular `("k", "v", "lonely")` yields `{k: v}` then
`{!BADKEY: lonely}`.  Being a total function, the grammar never fails or
aborts the emit call. -/
theorem C6_attribute_grammar (s : LogState) (lg : BoundLogger) (lvl : Int)
    (msg : String) (args : List GoAny) (o : Output)
    (hem : logWith s lg lvl msg args = some o) :
    o.record.attrs = argsToAttrSlice args ∧
    argsToAttrSlice [.str "k", .str "v", .str "lonely"] =
      [⟨"k", .str "v"⟩, ⟨badKey, .str "lonely"⟩] ∧
    (∀ k v rest, argsToAttrSlice (.attr k v :: rest) = ⟨k, v⟩ :: argsToAttrSlice rest) ∧
    (∀ x a rest, argsToAttrSlice (.str x :: a :: rest) = ⟨x, a⟩ :: argsToAttrSlice rest) ∧
    (∀ x, argsToAttrSlice [.str x] = [⟨badKey, .str x⟩]) ∧
    (∀ v rest, argsToAttrSlice (.other v :: rest) =
      ⟨badKey, .other v⟩ :: argsToAttrSlice rest) := by
  refine ⟨?_, by decide, fun k v rest => rfl, fun x a rest => rfl, fun x => rfl,
    fun v rest => rfl⟩
  unfold logWith at hem
  split at hem
  · cases hem
    rfl
  · exact absurd hem (by simp)

/-- The concrete output record used by the C6 witness: what `Error` at the
initial state produces for message `"m"` and arguments
`("k", "v", "lonely")`. -/
def c6Out : Output :=
  { format := .json
    dest := osStdout
    record :=
      { level := LevelError, msg := "m"
        attrs := [⟨"k", .str "v"⟩, ⟨badKey, .str "lonely"⟩] } }

/-- Claim C6 witness: the grammar theorem applied to the concrete emit
`Error("m", "k", "v", "lonely")` at the initial state. -/
theorem C6_witness :
    logWith initState initState.globalLogger LevelError "m"
      [.str "k", .str "v", .str "lonely"] = some c6Out ∧
    c6Out.record.attrs = argsToAttrSlice [.str "k", .str "v", .str "lonely"] :=
  ⟨by decide,
   (C6_attribute_grammar initState initState.globalLogger LevelError "m"
      [.str "k", .str "v", .str "lonely"] c6Out (by decide)).1⟩

/-- Claim C7: the claim has two parts.  Part one (which holds): with the
severity gate at Info — reached from the initial state, whose installed
logger references the gate live — `Debug` produces nothing while `Info`,
`Warn` and `Error` each produce exactly one record with the matching
level and the exact message, and in general an emit call at that state
writes iff its level is at or above the gate.  Part two (the general
"iff the current gate" law) fails once a rebuild has installed a
snapshotted level: with the gate at Info after `WithTextFormat`, an
`Info` call writes nothing because the rebuilt handler still filters at
the snapshotted Warn — the final conjunct evaluates the code at that
failing input (the code contradicts the repository's own tests here). -/
theorem C7_info_gate_filtering :
    Debug (WithLogLevel "info" initState) "m" [] = none ∧
    Info (WithLogLevel "info" initState) "m" [] =
      some { format := .json, dest := osStdout
             record := { level := LevelInfo, msg := "m", attrs := [] } } ∧
    Warn (WithLogLevel "info" initState) "m" [] =
      some { format := .json, dest := osStdout
             record := { level := LevelWarn, msg := "m", attrs := [] } } ∧
    Error (WithLogLevel "info" initState) "m" [] =
      some { format := .json, dest := osStdout
             record := { level := LevelError, msg := "m", attrs := [] } } ∧
    (∀ lvl : Int,
      logWith (WithLogLevel "info" initState)
          (WithLogLevel "info" initState).globalLogger lvl "m" [] ≠ none ↔
        (WithLogLevel "info" initState).logLevel ≤ lvl) ∧
    Info (WithLogLevel "info" (WithTextFormat initState)) "m" [] = none := by
  refine ⟨by decide, by decide, by decide, by decide, ?_, by decide⟩
  intro lvl
  have hmin : minLvl (WithLogLevel "info" initState)
      (WithLogLevel "info" initState).globalLogger.level =
      (WithLogLevel "info" initState).logLevel := rfl
  unfold logWith
  rw [hmin]
  by_cases hl : (WithLogLevel "info" initState).logLevel ≤ lvl
  · rw [if_pos hl]
    simp [hl]
  · rw [if_neg hl]
    simp [hl]

/-- Claim C8: `Configure` applies its actions in order and later actions
observe earlier ones: for every valid destination, configuring text
format, then severity "info", then that destination, and then calling
`Error("boom")`, writes one text-format (not JSON) record to that
destination carrying the Error level and the message "boom". -/
theorem C8_configure_order (h : WriterHandle)
    (hv : isNotNilOrNilPointer (.handle h) = true) :
    Error (Configure [WithTextFormat, WithLogLevel "info", WithOutput (.handle h)]
        initState) "boom" [] =
      some { format := .text, dest := h
             record := { level := LevelError, msg := "boom", attrs := [] } } := by
  have hv2 : ¬((h.kind = ReflectKind.ptr ∨ h.kind = ReflectKind.iface) ∧
      h.nilVal = true) := by
    intro hc
    have hf : isNotNilOrNilPointer (.handle h) = false := by
      simp [isNotNilOrNilPointer, hc]
    rw [hf] at hv
    simp at hv
  simp [Configure, WithTextFormat, WithLogLevel, WithOutput, storeLogger,
    isNotNilOrNilPointer, hv2, Error, logWith, minLvl, logLevelMap,
    LevelInfo, LevelError, badKey, argsToAttrSlice]

/-- Claim C8 witness: the theorem applied to a concrete valid sink. -/
theorem C8_witness :
    isNotNilOrNilPointer (.handle ⟨ReflectKind.other, false, 5⟩) = true ∧
    Error (Configure [WithTextFormat, WithLogLevel "info",
        WithOutput (.handle ⟨ReflectKind.other, false, 5⟩)] initState) "boom" [] =
      some { format := .text, dest := ⟨ReflectKind.other, false, 5⟩
             record := { level := LevelError, msg := "boom", attrs := [] } } :=
  ⟨by decide, C8_configure_order ⟨ReflectKind.other, false, 5⟩ (by decide)⟩

/-- Claim C9: the initial state (established by `init`, before any
configuration action) holds the documented defaults — gate Warn, JSON
format selector, `os.Stdout` destination — and the global logger cell
holds the bound logger built from exactly those three values (with the
gate referenced live); behaviorally, Info is filtered and Warn emitted. -/
theorem C9_defaults :
    initState.logLevel = LevelWarn ∧
    initState.handler = 0 ∧
    initState.output = osStdout ∧
    initState.globalLogger =
      { format := .json, out := osStdout, level := .levelVar } ∧
    minLvl initState initState.globalLogger.level = LevelWarn ∧
    Info initState "m" [] = none ∧
    Warn initState "m" [] =
      some { format := .json, dest := osStdout
             record := { level := LevelWarn, msg := "m", attrs := [] } } := by
  decide

/-- Claim C10: when both format actions are supplied, the one applied last
wins and no error is raised: text-then-JSON leaves the state identical to
JSON alone (and JSON-then-text identical to text alone), with the
resulting active format being the last one set. -/
theorem C10_last_format_wins (s : LogState) :
    Configure [WithTextFormat, WithJSONFormat] s = Configure [WithJSONFormat] s ∧
    Configure [WithJSONFormat, WithTextFormat] s = Configure [WithTextFormat] s ∧
    (Configure [WithTextFormat, WithJSONFormat] s).globalLogger.format = .json ∧
    (Configure [WithJSONFormat, WithTextFormat] s).globalLogger.format = .text := by
  refine ⟨rfl, rfl, rfl, rfl⟩

end LogPkg
